import Mathlib

/-!
Shallow embedding of the resume-interview Streamlit application (`app.py`).

The application is a single-file script re-executed on every user event.
We model one script execution (`main_step`) as a pure function from the
persistent session state plus the widget inputs of that run to the new
session state, together with two traces: the remote completion calls
issued during the run and the UI elements rendered.

The remote completion service (`openai.ChatCompletion.create`) is modelled
as an oracle `Oracle : String → String → Except String String` taking the
model identifier and the prompt and returning either the response text or
the message of the raised exception.
-/

namespace ResumeInterview

/-- Model identifier constant `GEMINI_MODEL` from `app.py`. -/
def GEMINI_MODEL : String := "google/gemini-2.0-flash-thinking-exp:free"

/-- Model identifier constant `QWEN_MODEL` from `app.py`. -/
def QWEN_MODEL : String := "qwen/qwen-vl-plus:free"

/-- Constant `MAX_ROUNDS` from `main` in `app.py`. -/
def MAX_ROUNDS : Nat := 5

/-- One remote-call record: the model identifier and the prompt sent to
`openai.ChatCompletion.create`. -/
abbrev Call := String × String

/-- The remote completion service: given a model identifier and a prompt,
returns the response text or the message of the exception it raised. -/
abbrev Oracle := String → String → Except String String

/-- One entry of `st.session_state.conversation_history`: the dict
appended in `main` with keys question, answer, evaluation, clarification. -/
structure RoundRecord where
  question : String
  answer : String
  evaluation : String
  clarification : String
deriving DecidableEq, Repr

/-- One rendered UI element (`st.title`, `st.write`, `st.info`, ...). -/
inductive Ui where
  | title (msg : String)
  | write (msg : String)
  | sidebarHeader (msg : String)
  | sidebarSuccess (msg : String)
  | info (msg : String)
  | warning (msg : String)
  | success (msg : String)
  | markdown (msg : String)
  | header (msg : String)
deriving DecidableEq, Repr

/-- The persistent `st.session_state` fields initialised in `main`
(lines 171-188 of `app.py`). -/
structure SessionState where
  conversation_history : List RoundRecord
  current_question : String
  resume_text : String
  selected_model : String
  round : Nat
  awaiting_confirmation : Bool
  current_answer : String
  current_evaluation : String
  current_clarification : String
deriving DecidableEq, Repr

/-- The session state right after the initialisation block of `main`
runs for the first time (all keys absent). -/
def init_state : SessionState :=
  { conversation_history := []
    current_question := ""
    resume_text := ""
    selected_model := "Both"
    round := 0
    awaiting_confirmation := false
    current_answer := ""
    current_evaluation := ""
    current_clarification := "" }

/-- The widget inputs of one script run: the sidebar selectbox value, the
extracted text of a freshly uploaded PDF (if any), the content of the
answer text area, and which button (if any) was clicked to trigger the
run. At most one button fires per run. -/
inductive UserAction where
  | idle
  | submit
  | clarify
  | next
deriving DecidableEq, Repr

/-- Inputs of one script run. -/
structure RunInput where
  selected : String
  uploaded : Option String
  answer_text : String
  action : UserAction
deriving DecidableEq, Repr

/-- Result of one script run: the new session state, the remote calls
issued (in order), and the UI elements rendered (in order). -/
structure StepResult where
  state : SessionState
  calls : List Call
  ui : List Ui
deriving DecidableEq, Repr

/-- The prompt built by `evaluate_with_model` (lines 45-54). -/
def evaluation_prompt (answer question : String) : String :=
  "Evaluate the candidate\x27s answer to the interview question with a focus on practical skills, project experience, " ++
  "and clarity of the core concepts. Consider that the candidate may describe hands-on experiences differently.\n\n" ++
  "Question: " ++ question ++ "\n\n" ++
  "Answer: " ++ answer ++ "\n\n" ++
  "Please provide two scores out of 100:\n" ++
  "1. Practical Skills and Project Experience: How well does the candidate demonstrate hands-on abilities?\n" ++
  "2. Clarity and Depth of Concept Explanation: How clearly and thoroughly does the candidate explain the concepts?\n\n" ++
  "Briefly mention any areas for improvement."

/-- Function `evaluate_with_model` (lines 41-65): sends the evaluation prompt to
the given model and returns the response, or the stringified exception
on failure, together with the single call issued. -/
def evaluate_with_model (complete : Oracle) (model_name answer question : String) :
    String × List Call :=
  let prompt := evaluation_prompt answer question
  let evaluation :=
    match complete model_name prompt with
    | Except.ok c => c
    | Except.error e => "Error during evaluation with " ++ model_name ++ ": " ++ e
  (evaluation, [(model_name, prompt)])

/-- Function `evaluate_answer` (lines 67-88): dispatches on `selected_model`;
the `else` branch (anything other than exactly "Gemini" or "Qwen")
evaluates with Gemini then Qwen and concatenates the labelled results. -/
def evaluate_answer (complete : Oracle) (answer question selected_model : String) :
    String × List Call × List Ui :=
  if selected_model == "Gemini" then
    let r := evaluate_with_model complete GEMINI_MODEL answer question
    ("**Evaluation from Gemini:**\n" ++ r.1, r.2,
      [Ui.info "Calling Gemini model for evaluation..."])
  else if selected_model == "Qwen" then
    let r := evaluate_with_model complete QWEN_MODEL answer question
    ("**Evaluation from Qwen:**\n" ++ r.1, r.2,
      [Ui.info "Calling Qwen model for evaluation..."])
  else
    let rg := evaluate_with_model complete GEMINI_MODEL answer question
    let rq := evaluate_with_model complete QWEN_MODEL answer question
    ("**Evaluation from Gemini:**\n" ++ rg.1 ++ "\n\n" ++
        "**Evaluation from Qwen:**\n" ++ rq.1,
      rg.2 ++ rq.2,
      [Ui.info "Calling Gemini model for evaluation...",
        Ui.info "Calling Qwen model for evaluation..."])

/-- The prompt built by `generate_clarification` (lines 94-100). -/
def clarification_prompt (answer question : String) : String :=
  "You are an interviewer assisting a candidate in refining their answer. The candidate has just provided an answer to the following question. " ++
  "Please provide suggestions on how they can clarify, rephrase, or further elaborate their answer, highlighting areas that might need more detail.\n\n" ++
  "Question: " ++ question ++ "\n\n" ++
  "Candidate\x27s Answer: " ++ answer ++ "\n\n" ++
  "Clarification and Suggestions:"

/-- Function `generate_clarification` (lines 90-111): sends the clarification
prompt to the Gemini model and returns the response, or the stringified
exception on failure, with the single call issued. -/
def generate_clarification (complete : Oracle) (answer question : String) :
    String × List Call :=
  let prompt := clarification_prompt answer question
  let clarification :=
    match complete GEMINI_MODEL prompt with
    | Except.ok c => c
    | Except.error e => "Error during clarification generation: " ++ e
  (clarification, [(GEMINI_MODEL, prompt)])

/-- The accumulation loop of `generate_dynamic_question` (lines 131-132):
renders the enumerated history entries as "Qn: ...\nAn: ...\n" lines,
starting the (0-based) enumeration at index `i`. -/
def history_pairs : Nat → List RoundRecord → String
  | _, [] => ""
  | i, entry :: rest =>
      "Q" ++ toString (i + 1) ++ ": " ++ entry.question ++ "\n" ++
        "A" ++ toString (i + 1) ++ ": " ++ entry.answer ++ "\n" ++
        history_pairs (i + 1) rest

/-- The `history_text` value of `generate_dynamic_question`
(lines 129-134): the rendered pairs for a non-empty history, a fixed
placeholder otherwise. -/
def history_text (conversation_history : List RoundRecord) : String :=
  match conversation_history with
  | [] => "No previous conversation."
  | _ :: _ => history_pairs 0 conversation_history

/-- The prompt built by `generate_dynamic_question` (lines 136-144). -/
def question_prompt (resume_text history_text : String) : String :=
  "You are an interviewer. Given the candidate\x27s resume and the conversation so far, " ++
  "please generate a dynamic, context-specific interview question that probes the candidate\x27s hands-on skills " ++
  "and understanding of key concepts mentioned in the resume. Avoid generic questions and ensure the question " ++
  "is relevant to the candidate\x27s background.\n\n" ++
  "Candidate\x27s Resume:\n" ++ resume_text ++ "\n\n" ++
  "Conversation History:\n" ++ history_text ++ "\n\n" ++
  "Interview Question:"

/-- Function `generate_dynamic_question` (lines 125-155): sends the question
prompt to the Gemini model and returns the response, or the stringified
exception on failure, with the single call issued. -/
def generate_dynamic_question (complete : Oracle)
    (resume_text : String) (conversation_history : List RoundRecord) :
    String × List Call :=
  let prompt := question_prompt resume_text (history_text conversation_history)
  let question :=
    match complete GEMINI_MODEL prompt with
    | Except.ok c => c
    | Except.error e => "Error generating question: " ++ e
  (question, [(GEMINI_MODEL, prompt)])

/-- One line of the report loop body (lines 215-222): the rendering of
one history entry, with the clarification included only when truthy
(non-empty). -/
def report_entry (i : Nat) (entry : RoundRecord) : String :=
  "### Round " ++ toString (i + 1) ++ "\n" ++
  "**Question:** " ++ entry.question ++ "\n\n" ++
  "**Your Answer:** " ++ entry.answer ++ "\n\n" ++
  "**Evaluation:** " ++ entry.evaluation ++ "\n\n" ++
  (if entry.clarification == "" then "" else
    "**Clarification:** " ++ entry.clarification ++ "\n\n") ++
  "---\n\n"

/-- The report accumulation loop of `main` (lines 214-222), with the
enumeration starting at index `i`. -/
def build_report : Nat → List RoundRecord → String
  | _, [] => ""
  | i, entry :: rest => report_entry i entry ++ build_report (i + 1) rest

/-- The full report string rendered once `round >= MAX_ROUNDS`. -/
def report (conversation_history : List RoundRecord) : String :=
  build_report 0 conversation_history

/-- The intro text written by `st.write` at the top of `main`
(lines 162-168), a Python triple-quoted string. -/
def intro_text : String :=
  "\n        This application simulates an interview that adapts dynamically to your resume.\n        The system will generate interview questions based on your background and the conversation history.\n        After submitting your answer, you can ask for further clarification or choose to move to the next question.\n        "

/-- The page chrome emitted on every run: title, intro, sidebar headers
(lines 161-168, 191, 198). -/
def base_ui : List Ui :=
  [Ui.title "Dynamic Resume-Based Interview Simulator",
    Ui.write intro_text,
    Ui.sidebarHeader "Model Selection",
    Ui.sidebarHeader "Upload Your Resume PDF"]

/-- Python string `.strip()`: drop leading and trailing whitespace. -/
def py_strip (s : String) : String :=
  String.mk (((s.data.dropWhile Char.isWhitespace).reverse.dropWhile Char.isWhitespace).reverse)

/-- The Submit Answer handler body (lines 239-248): warn and change
nothing on a whitespace-only answer, otherwise evaluate and store the
answer and evaluation and set `awaiting_confirmation`. -/
def submit_answer_action (complete : Oracle) (s : SessionState)
    (candidate_answer : String) : StepResult :=
  if py_strip candidate_answer == "" then
    ⟨s, [], [Ui.warning "Please enter your answer before submitting."]⟩
  else
    let r := evaluate_answer complete candidate_answer s.current_question s.selected_model
    ⟨{ s with
        current_evaluation := r.1
        current_answer := candidate_answer
        awaiting_confirmation := true },
      r.2.1,
      Ui.info "Evaluating your answer... Please wait." :: r.2.2 ++
        [Ui.success "Evaluation completed!", Ui.markdown r.1]⟩

/-- The Need More Clarification handler body (lines 252-256): generate a
clarification from the stored answer and question and overwrite
`current_clarification` with it. -/
def clarify_action (complete : Oracle) (s : SessionState) : StepResult :=
  let r := generate_clarification complete s.current_answer s.current_question
  ⟨{ s with current_clarification := r.1 },
    r.2,
    [Ui.info "Clarification / Suggestions:", Ui.markdown r.1]⟩

/-- The Proceed to Next Question handler body (lines 258-269): append
the round record, increment `round`, clear the per-round scratch fields
and the awaiting flag. -/
def proceed_action (s : SessionState) : SessionState :=
  { s with
    conversation_history := s.conversation_history ++
      [{ question := s.current_question
         answer := s.current_answer
         evaluation := s.current_evaluation
         clarification := s.current_clarification }]
    round := s.round + 1
    awaiting_confirmation := false
    current_question := ""
    current_answer := ""
    current_evaluation := ""
    current_clarification := "" }

/-- The sidebar stage of a run (lines 192-203): apply the selectbox
value and, when a PDF was uploaded, store its extracted text. -/
def apply_sidebar (s0 : SessionState) (inp : RunInput) : SessionState × List Ui :=
  let s1 := { s0 with selected_model := inp.selected }
  match inp.uploaded with
  | some t => ({ s1 with resume_text := t },
      [Ui.sidebarSuccess "Resume uploaded and processed!"])
  | none => (s1, ([] : List Ui))

/-- The question stage of a run (lines 227-230): generate a new question
when `current_question` is empty. -/
def ensure_question (complete : Oracle) (s : SessionState) : SessionState × List Call :=
  if s.current_question == "" then
    let r := generate_dynamic_question complete s.resume_text s.conversation_history
    ({ s with current_question := r.1 }, r.2)
  else (s, ([] : List Call))

/-- The button dispatch of a run (lines 238-269): the Submit handler is
reachable only when the awaiting flag is down (the button is not even
rendered otherwise), the Clarify and Next handlers only when it is up. -/
def dispatch_action (complete : Oracle) (sq : SessionState) (inp : RunInput) : StepResult :=
  match inp.action with
  | UserAction.submit =>
      if sq.awaiting_confirmation then ⟨sq, [], []⟩
      else submit_answer_action complete sq inp.answer_text
  | UserAction.clarify =>
      if sq.awaiting_confirmation then clarify_action complete sq
      else ⟨sq, [], []⟩
  | UserAction.next =>
      if sq.awaiting_confirmation then ⟨proceed_action sq, [], []⟩
      else ⟨sq, [], []⟩
  | UserAction.idle => ⟨sq, [], []⟩

/-- One full execution of `main` (lines 160-273) on a user event: apply
the sidebar selectbox and upload, bail out when no resume is present,
render the report when `round >= MAX_ROUNDS`, otherwise generate the
question if missing and dispatch the clicked button. -/
def main_step (complete : Oracle) (s0 : SessionState) (inp : RunInput) : StepResult :=
  let su := apply_sidebar s0 inp
  let s := su.1
  let upload_ui := su.2
  if s.resume_text == "" then
    ⟨s, [],
      base_ui ++ upload_ui ++
        [Ui.info "Please upload your resume PDF from the sidebar to begin the interview."]⟩
  else if MAX_ROUNDS ≤ s.round then
    ⟨s, [],
      base_ui ++ upload_ui ++
        [Ui.header "Interview Completed",
          Ui.write "Thank you for participating in the interview. Below is your performance report:",
          Ui.markdown (report s.conversation_history)]⟩
  else
    let sg := ensure_question complete s
    let sq := sg.1
    let round_ui :=
      [Ui.header ("Interview Round " ++ toString (sq.round + 1)),
        Ui.write sq.current_question]
    let r := dispatch_action complete sq inp
    ⟨r.state, sg.2 ++ r.calls, base_ui ++ upload_ui ++ round_ui ++ r.ui⟩

/-- Repeated script runs: thread the state through a list of run inputs,
collecting every remote call issued along the way. Each run may use its
own oracle (the remote service is nondeterministic across requests). -/
def main_steps : List (Oracle × RunInput) → SessionState → SessionState × List Call
  | [], s => (s, [])
  | (complete, inp) :: rest, s =>
      let r := main_step complete s inp
      let rec_result := main_steps rest r.state
      (rec_result.1, r.calls ++ rec_result.2)

/-- The states reachable from the initial session state by any sequence
of script runs, with an arbitrary oracle and input on each run. -/
inductive Reachable : SessionState → Prop
  | init : Reachable init_state
  | step (complete : Oracle) (inp : RunInput) {s : SessionState} :
      Reachable s → Reachable (main_step complete s inp).state

/-! ### Helper lemmas -/

/-- Appending to a non-empty string yields a non-empty string. -/
theorem string_append_ne_empty_left (a b : String) (h : a ≠ "") : a ++ b ≠ "" := by
  intro hab
  apply h
  rw [String.ext_iff] at hab ⊢
  rw [String.data_append] at hab
  exact (List.append_eq_nil.mp hab).1

/-- A string whose strip is non-empty is itself non-empty. -/
theorem ne_empty_of_strip_ne_empty (a : String) (h : py_strip a ≠ "") : a ≠ "" := by
  intro ha
  exact h (by rw [ha]; rfl)

/-- The evaluation string produced by `evaluate_answer` always starts with
an "**Evaluation from ...**" label and is therefore non-empty, whatever
the selected model and whatever the oracle returns. -/
theorem evaluate_answer_ne_empty (complete : Oracle) (answer question selected_model : String) :
    (evaluate_answer complete answer question selected_model).1 ≠ "" := by
  unfold evaluate_answer
  split
  · exact string_append_ne_empty_left _ _ (by decide)
  · split
    · exact string_append_ne_empty_left _ _ (by decide)
    · exact string_append_ne_empty_left _ _
        (string_append_ne_empty_left _ _
          (string_append_ne_empty_left _ _
            (string_append_ne_empty_left _ _ (by decide))))

/-- Lemma: `submit_answer_action` never touches the history or the round. -/
theorem submit_answer_action_frame (complete : Oracle) (s : SessionState) (ans : String) :
    (submit_answer_action complete s ans).state.conversation_history = s.conversation_history ∧
    (submit_answer_action complete s ans).state.round = s.round := by
  unfold submit_answer_action
  split <;> simp

/-- Lemma: `clarify_action` changes only `current_clarification`. -/
theorem clarify_action_frame (complete : Oracle) (s : SessionState) :
    (clarify_action complete s).state =
      { s with current_clarification :=
          (generate_clarification complete s.current_answer s.current_question).1 } := by
  rfl

/-- The sidebar stage changes only `selected_model` and `resume_text`. -/
theorem apply_sidebar_frame (s : SessionState) (inp : RunInput) :
    (apply_sidebar s inp).1.conversation_history = s.conversation_history ∧
    (apply_sidebar s inp).1.round = s.round ∧
    (apply_sidebar s inp).1.awaiting_confirmation = s.awaiting_confirmation ∧
    (apply_sidebar s inp).1.current_answer = s.current_answer ∧
    (apply_sidebar s inp).1.current_evaluation = s.current_evaluation ∧
    (apply_sidebar s inp).1.current_question = s.current_question := by
  cases h : inp.uploaded <;> simp [apply_sidebar, h]

/-- The question stage changes only `current_question`. -/
theorem ensure_question_frame (complete : Oracle) (s : SessionState) :
    (ensure_question complete s).1.conversation_history = s.conversation_history ∧
    (ensure_question complete s).1.round = s.round ∧
    (ensure_question complete s).1.awaiting_confirmation = s.awaiting_confirmation ∧
    (ensure_question complete s).1.current_answer = s.current_answer ∧
    (ensure_question complete s).1.current_evaluation = s.current_evaluation := by
  unfold ensure_question
  split <;> simp

/-- The state after a run is either the post-sidebar state (early return)
or the result of dispatching the action on the post-question state. -/
theorem main_step_state_cases (complete : Oracle) (s0 : SessionState) (inp : RunInput) :
    (main_step complete s0 inp).state = (apply_sidebar s0 inp).1 ∨
    (main_step complete s0 inp).state =
      (dispatch_action complete (ensure_question complete (apply_sidebar s0 inp).1).1 inp).state := by
  unfold main_step
  dsimp only
  split
  · exact Or.inl rfl
  · split
    · exact Or.inl rfl
    · exact Or.inr rfl

/-- An oracle that always succeeds with a fixed response, used to
instantiate universally quantified theorems on concrete inputs. -/
def ok_oracle : Oracle := fun _ _ => Except.ok "sample response"

/-- An oracle that always raises, used to exercise the error paths. -/
def fail_oracle : Oracle := fun _ _ => Except.error "boom"

/-! ### Claims -/

/-- C2: submitting an empty or whitespace-only answer leaves the session
state exactly as it was (round, awaiting flag, history and all four
scratch fields included), issues no remote call, and renders only the
warning message. -/
theorem submit_blank_answer_unchanged (complete : Oracle) (s : SessionState)
    (candidate_answer : String) (h : py_strip candidate_answer = "") :
    submit_answer_action complete s candidate_answer =
      ⟨s, [], [Ui.warning "Please enter your answer before submitting."]⟩ := by
  simp [submit_answer_action, h]

/-- Witness for C2 at a concrete whitespace-only answer. -/
theorem submit_blank_answer_unchanged_witness :
    submit_answer_action ok_oracle init_state " \n\t " =
      ⟨init_state, [], [Ui.warning "Please enter your answer before submitting."]⟩ :=
  submit_blank_answer_unchanged ok_oracle init_state " \n\t " (by decide)

/-- C4: with selected model "Both", evaluation issues exactly one Gemini
call followed by exactly one Qwen call (same prompt), and returns the
Gemini-labelled section followed by the Qwen-labelled section, each
wrapping the corresponding backend response. -/
theorem evaluate_answer_both (complete : Oracle) (answer question : String) :
    evaluate_answer complete answer question "Both" =
      ("**Evaluation from Gemini:**\n" ++
          (evaluate_with_model complete GEMINI_MODEL answer question).1 ++ "\n\n" ++
          "**Evaluation from Qwen:**\n" ++
          (evaluate_with_model complete QWEN_MODEL answer question).1,
        [(GEMINI_MODEL, evaluation_prompt answer question),
          (QWEN_MODEL, evaluation_prompt answer question)],
        [Ui.info "Calling Gemini model for evaluation...",
          Ui.info "Calling Qwen model for evaluation..."]) := by
  simp [evaluate_answer, evaluate_with_model]

/-- C10: any selected-model value other than exactly "Gemini" or exactly
"Qwen" falls into the dual-backend branch: one Gemini call then one Qwen
call, and the concatenated doubly-labelled result. -/
theorem evaluate_answer_other_model_dual (complete : Oracle)
    (answer question selected_model : String)
    (h1 : selected_model ≠ "Gemini") (h2 : selected_model ≠ "Qwen") :
    evaluate_answer complete answer question selected_model =
      ("**Evaluation from Gemini:**\n" ++
          (evaluate_with_model complete GEMINI_MODEL answer question).1 ++ "\n\n" ++
          "**Evaluation from Qwen:**\n" ++
          (evaluate_with_model complete QWEN_MODEL answer question).1,
        [(GEMINI_MODEL, evaluation_prompt answer question),
          (QWEN_MODEL, evaluation_prompt answer question)],
        [Ui.info "Calling Gemini model for evaluation...",
          Ui.info "Calling Qwen model for evaluation..."]) := by
  simp [evaluate_answer, evaluate_with_model, h1, h2]

/-- Witness for C10 at the concrete selected-model value "Mistral". -/
theorem evaluate_answer_other_model_dual_witness :
    evaluate_answer ok_oracle "a" "q" "Mistral" =
      ("**Evaluation from Gemini:**\n" ++
          (evaluate_with_model ok_oracle GEMINI_MODEL "a" "q").1 ++ "\n\n" ++
          "**Evaluation from Qwen:**\n" ++
          (evaluate_with_model ok_oracle QWEN_MODEL "a" "q").1,
        [(GEMINI_MODEL, evaluation_prompt "a" "q"),
          (QWEN_MODEL, evaluation_prompt "a" "q")],
        [Ui.info "Calling Gemini model for evaluation...",
          Ui.info "Calling Qwen model for evaluation..."]) :=
  evaluate_answer_other_model_dual ok_oracle "a" "q" "Mistral" (by decide) (by decide)

/-- A sequence of clarification requests in one round, each served by its
own oracle (the remote service may answer differently each time). -/
def clarify_many (oracles : List Oracle) (s : SessionState) : SessionState :=
  oracles.foldl (fun st o => (clarify_action o st).state) s

/-- Repeated clarification requests leave the stored answer, evaluation,
question and history untouched (frame property of the clarify loop). -/
theorem clarify_many_frame (oracles : List Oracle) (s : SessionState) :
    (clarify_many oracles s).current_answer = s.current_answer ∧
    (clarify_many oracles s).current_evaluation = s.current_evaluation ∧
    (clarify_many oracles s).current_question = s.current_question ∧
    (clarify_many oracles s).conversation_history = s.conversation_history := by
  induction oracles generalizing s with
  | nil => exact ⟨rfl, rfl, rfl, rfl⟩
  | cons o rest ih =>
      simpa [clarify_many, clarify_action] using ih { s with current_clarification :=
        (generate_clarification o s.current_answer s.current_question).1 }

/-- C5: any number of clarification requests in one round never modify
the stored answer or evaluation; a further clarification request
overwrites the stored clarification with its own result (computed from
the unchanged answer and question), and the record appended on advancing
carries exactly that last clarification. -/
theorem clarification_last_wins (oracles : List Oracle) (complete : Oracle) (s : SessionState) :
    (clarify_action complete (clarify_many oracles s)).state.current_answer = s.current_answer ∧
    (clarify_action complete (clarify_many oracles s)).state.current_evaluation = s.current_evaluation ∧
    (clarify_action complete (clarify_many oracles s)).state.current_clarification =
      (generate_clarification complete s.current_answer s.current_question).1 ∧
    (proceed_action (clarify_action complete (clarify_many oracles s)).state).conversation_history =
      s.conversation_history ++
        [{ question := s.current_question
           answer := s.current_answer
           evaluation := s.current_evaluation
           clarification :=
             (generate_clarification complete s.current_answer s.current_question).1 }] := by
  obtain ⟨ha, he, hq, hh⟩ := clarify_many_frame oracles s
  rw [clarify_action_frame]
  refine ⟨?_, ?_, ?_, ?_⟩
  · simpa using ha
  · simpa using he
  · simp [ha, hq]
  · simp [proceed_action, ha, he, hq, hh]

/-- C7: in the awaiting-confirmation state, clicking Proceed to Next
Question appends exactly one record built from the four scratch fields,
increments the round by one, clears the awaiting flag and all four
scratch fields, and issues no remote call. The sidebar selectbox value
is applied as on every run. -/
theorem proceed_appends_and_resets (complete : Oracle) (s : SessionState) (sel txt : String)
    (hres : s.resume_text ≠ "") (hround : s.round < MAX_ROUNDS)
    (hq : s.current_question ≠ "") (hawait : s.awaiting_confirmation = true) :
    (main_step complete s ⟨sel, none, txt, UserAction.next⟩).state =
      { conversation_history := s.conversation_history ++
          [{ question := s.current_question
             answer := s.current_answer
             evaluation := s.current_evaluation
             clarification := s.current_clarification }]
        current_question := ""
        resume_text := s.resume_text
        selected_model := sel
        round := s.round + 1
        awaiting_confirmation := false
        current_answer := ""
        current_evaluation := ""
        current_clarification := "" } ∧
    (main_step complete s ⟨sel, none, txt, UserAction.next⟩).calls = [] := by
  simp [main_step, apply_sidebar, ensure_question, dispatch_action, proceed_action,
    beq_eq_false_iff_ne.mpr hres, beq_eq_false_iff_ne.mpr hq, hawait, Nat.not_le.mpr hround]

/-- A concrete awaiting-confirmation state used by witnesses. -/
def awaiting_example : SessionState :=
  { conversation_history := []
    current_question := "Tell me about your Python projects."
    resume_text := "5 years Python, built REST APIs"
    selected_model := "Gemini"
    round := 0
    awaiting_confirmation := true
    current_answer := "I used Flask and Django"
    current_evaluation := "**Evaluation from Gemini:**\nGood."
    current_clarification := "" }

/-- Witness for C7 on a concrete awaiting-confirmation state. -/
theorem proceed_appends_and_resets_witness :
    (main_step ok_oracle awaiting_example ⟨"Gemini", none, "", UserAction.next⟩).state =
      { conversation_history := awaiting_example.conversation_history ++
          [{ question := awaiting_example.current_question
             answer := awaiting_example.current_answer
             evaluation := awaiting_example.current_evaluation
             clarification := awaiting_example.current_clarification }]
        current_question := ""
        resume_text := awaiting_example.resume_text
        selected_model := "Gemini"
        round := awaiting_example.round + 1
        awaiting_confirmation := false
        current_answer := ""
        current_evaluation := ""
        current_clarification := "" } ∧
    (main_step ok_oracle awaiting_example ⟨"Gemini", none, "", UserAction.next⟩).calls = [] :=
  proceed_appends_and_resets ok_oracle awaiting_example "Gemini" ""
    (by decide) (by decide) (by decide) rfl

/-- The rendering loop of the history equals the concatenation of the
per-entry "Qn/An" blocks of the enumerated history. -/
theorem history_pairs_enumFrom (i : Nat) (h : List RoundRecord) :
    history_pairs i h =
      ((h.enumFrom i).map fun p =>
        "Q" ++ toString (p.1 + 1) ++ ": " ++ p.2.question ++ "\n" ++
          "A" ++ toString (p.1 + 1) ++ ": " ++ p.2.answer ++ "\n").foldr (· ++ ·) "" := by
  induction h generalizing i with
  | nil => rfl
  | cons e rest ih =>
      simp [history_pairs, List.enumFrom_cons, ih, String.append_assoc]

/-- C6: the question-generation call sends exactly the prompt built from
the resume and the rendered history; the rendering is the fixed
placeholder for an empty history, and the ordered concatenation of
"Qn: ...\nAn: ...\n" blocks (1-based, in history order) otherwise. -/
theorem question_prompt_history_rendering (complete : Oracle) (resume_text : String)
    (conversation_history : List RoundRecord) :
    (generate_dynamic_question complete resume_text conversation_history).2 =
      [(GEMINI_MODEL, question_prompt resume_text (history_text conversation_history))] ∧
    history_text [] = "No previous conversation." ∧
    (conversation_history ≠ [] →
      history_text conversation_history =
        (conversation_history.enum.map fun p =>
          "Q" ++ toString (p.1 + 1) ++ ": " ++ p.2.question ++ "\n" ++
            "A" ++ toString (p.1 + 1) ++ ": " ++ p.2.answer ++ "\n").foldr (· ++ ·) "") := by
  refine ⟨rfl, rfl, ?_⟩
  intro hne
  cases conversation_history with
  | nil => exact absurd rfl hne
  | cons e rest =>
      show history_pairs 0 (e :: rest) = _
      rw [history_pairs_enumFrom]
      rfl

/-- A concrete two-round history used by witnesses. -/
def sample_history : List RoundRecord :=
  [{ question := "q1", answer := "a1", evaluation := "e1", clarification := "" },
   { question := "q2", answer := "a2", evaluation := "e2", clarification := "c2" }]

/-- Witness for C6 on a concrete non-empty history. -/
theorem question_prompt_history_rendering_witness :
    history_text sample_history =
      (sample_history.enum.map fun p =>
        "Q" ++ toString (p.1 + 1) ++ ": " ++ p.2.question ++ "\n" ++
          "A" ++ toString (p.1 + 1) ++ ": " ++ p.2.answer ++ "\n").foldr (· ++ ·) "" :=
  (question_prompt_history_rendering ok_oracle "r" sample_history).2.2 (by decide)

/-- C8 counterexample: on a failing question-generation call the stored
string is "Error generating question: boom", which does not have the
claimed shape "Error during <operation>: <message>" (it does not even
start with "Error during "). -/
theorem error_string_form_counterexample :
    (generate_dynamic_question fail_oracle "r" []).1 = "Error generating question: boom" ∧
    ("Error during ".data.isPrefixOf (generate_dynamic_question fail_oracle "r" []).1.data) = false := by
  exact ⟨rfl, by decide⟩

/-- C8 amended: a failing evaluation call yields "Error during evaluation
with <model>: <message>", a failing clarification call yields "Error
during clarification generation: <message>", and a failing
question-generation call yields "Error generating question: <message>";
each string is returned as the normal text result of the operation. -/
theorem error_strings_amended (complete : Oracle)
    (model_name answer question resume_text e : String)
    (conversation_history : List RoundRecord) :
    (complete model_name (evaluation_prompt answer question) = Except.error e →
      (evaluate_with_model complete model_name answer question).1 =
        "Error during evaluation with " ++ model_name ++ ": " ++ e) ∧
    (complete GEMINI_MODEL (clarification_prompt answer question) = Except.error e →
      (generate_clarification complete answer question).1 =
        "Error during clarification generation: " ++ e) ∧
    (complete GEMINI_MODEL (question_prompt resume_text (history_text conversation_history)) =
        Except.error e →
      (generate_dynamic_question complete resume_text conversation_history).1 =
        "Error generating question: " ++ e) := by
  refine ⟨?_, ?_, ?_⟩ <;> intro h <;>
    simp [evaluate_with_model, generate_clarification, generate_dynamic_question, h]

/-- Witness for C8 (amended) with a concretely failing oracle. -/
theorem error_strings_amended_witness :
    (evaluate_with_model fail_oracle "m" "a" "q").1 =
      "Error during evaluation with " ++ "m" ++ ": " ++ "boom" ∧
    (generate_clarification fail_oracle "a" "q").1 =
      "Error during clarification generation: " ++ "boom" ∧
    (generate_dynamic_question fail_oracle "r" []).1 =
      "Error generating question: " ++ "boom" :=
  ⟨(error_strings_amended fail_oracle "m" "a" "q" "r" "boom" []).1 rfl,
   (error_strings_amended fail_oracle "m" "a" "q" "r" "boom" []).2.1 rfl,
   (error_strings_amended fail_oracle "m" "a" "q" "r" "boom" []).2.2 rfl⟩

/-- The session invariant relating the history length to the round
counter. -/
def history_length_invariant (s : SessionState) : Prop :=
  s.conversation_history.length = s.round

/-- C1: the history length equals the round counter in the initial state
and after every completed script run (hence after every submit,
clarification and proceed transition). -/
theorem history_matches_round :
    history_length_invariant init_state ∧
    ∀ (complete : Oracle) (s : SessionState) (inp : RunInput),
      history_length_invariant s →
      history_length_invariant (main_step complete s inp).state := by
  constructor
  · rfl
  · intro complete s inp h
    unfold history_length_invariant at h ⊢
    obtain ⟨a1, a2, -⟩ := apply_sidebar_frame s inp
    rcases main_step_state_cases complete s inp with he | he <;> rw [he]
    · rw [a1, a2]; exact h
    · obtain ⟨q1, q2, -⟩ := ensure_question_frame complete (apply_sidebar s inp).1
      have hsq : (ensure_question complete (apply_sidebar s inp).1).1.conversation_history.length =
          (ensure_question complete (apply_sidebar s inp).1).1.round := by
        rw [q1, q2, a1, a2]; exact h
      unfold dispatch_action
      cases inp.action <;> dsimp only
      · exact hsq
      · split
        · exact hsq
        · obtain ⟨d1, d2⟩ := submit_answer_action_frame complete
            (ensure_question complete (apply_sidebar s inp).1).1 inp.answer_text
          rw [d1, d2]; exact hsq
      · split
        · rw [clarify_action_frame]; simpa using hsq
        · exact hsq
      · split
        · simpa [proceed_action] using hsq
        · exact hsq

/-- Witness for C1: one concrete run from the initial state keeps the
invariant. -/
theorem history_matches_round_witness :
    history_length_invariant
      (main_step ok_oracle init_state ⟨"Both", some "resume", "", UserAction.idle⟩).state :=
  history_matches_round.2 ok_oracle init_state ⟨"Both", some "resume", "", UserAction.idle⟩
    history_matches_round.1

/-- Once the round counter has reached the cap, a single run issues no
remote call and leaves the round counter (and the history) untouched. -/
theorem main_step_completed (complete : Oracle) (s : SessionState) (inp : RunInput)
    (h : MAX_ROUNDS ≤ s.round) :
    (main_step complete s inp).calls = [] ∧
    (main_step complete s inp).state.round = s.round ∧
    (main_step complete s inp).state.conversation_history = s.conversation_history := by
  rcases inp with ⟨sel, up, txt, act⟩
  unfold main_step apply_sidebar
  cases up <;> dsimp only <;> split <;> simp_all

/-- Over any sequence of further runs after the cap is reached, no remote
call is ever issued. -/
theorem main_steps_completed (runs : List (Oracle × RunInput)) :
    ∀ s : SessionState, MAX_ROUNDS ≤ s.round → (main_steps runs s).2 = [] := by
  induction runs with
  | nil => intro s _; rfl
  | cons r rest ih =>
      intro s h
      obtain ⟨o, i⟩ := r
      obtain ⟨hc, hr, _⟩ := main_step_completed o s i h
      have hnext : MAX_ROUNDS ≤ (main_step o s i).state.round := by rw [hr]; exact h
      simp [main_steps, hc, ih _ hnext]

/-- C3: once the round counter has reached MAX_ROUNDS, no further
question-generation, evaluation or clarification call is ever issued,
whatever sequence of user actions follows; a run then renders exactly
the completed-interview report of the stored history. -/
theorem completed_only_report (s : SessionState) (h : MAX_ROUNDS ≤ s.round) :
    (∀ runs : List (Oracle × RunInput), (main_steps runs s).2 = []) ∧
    ∀ (complete : Oracle) (sel txt : String) (act : UserAction),
      s.resume_text ≠ "" →
      (main_step complete s ⟨sel, none, txt, act⟩).ui =
        base_ui ++
          [Ui.header "Interview Completed",
            Ui.write "Thank you for participating in the interview. Below is your performance report:",
            Ui.markdown (report s.conversation_history)] := by
  constructor
  · intro runs
    exact main_steps_completed runs s h
  · intro complete sel txt act hres
    unfold main_step apply_sidebar
    simp [beq_eq_false_iff_ne.mpr hres, h]

/-- A concrete completed session used by witnesses. -/
def completed_example : SessionState :=
  { conversation_history :=
      [{ question := "q1", answer := "a1", evaluation := "e1", clarification := "" },
       { question := "q2", answer := "a2", evaluation := "e2", clarification := "c2" },
       { question := "q3", answer := "a3", evaluation := "e3", clarification := "" },
       { question := "q4", answer := "a4", evaluation := "e4", clarification := "" },
       { question := "q5", answer := "a5", evaluation := "e5", clarification := "" }]
    current_question := ""
    resume_text := "resume"
    selected_model := "Both"
    round := 5
    awaiting_confirmation := false
    current_answer := ""
    current_evaluation := ""
    current_clarification := "" }

/-- Witness for C3 on a concrete completed session. -/
theorem completed_only_report_witness :
    (main_steps [(ok_oracle, ⟨"Both", none, "late answer", UserAction.submit⟩),
        (fail_oracle, ⟨"Qwen", none, "", UserAction.clarify⟩)] completed_example).2 = [] ∧
    (main_step ok_oracle completed_example ⟨"Both", none, "late answer", UserAction.submit⟩).ui =
      base_ui ++
        [Ui.header "Interview Completed",
          Ui.write "Thank you for participating in the interview. Below is your performance report:",
          Ui.markdown (report completed_example.conversation_history)] :=
  ⟨(completed_only_report completed_example (by decide)).1 _,
   (completed_only_report completed_example (by decide)).2 ok_oracle "Both" "late answer"
      UserAction.submit (by decide)⟩

/-- Preservation of the awaiting-confirmation invariant by one run: if
the invariant holds before, it holds after, because the only transition
that raises the flag also stores a non-blank answer and a labelled
(hence non-empty) evaluation. -/
theorem main_step_preserves_awaiting_nonempty (complete : Oracle) (s : SessionState)
    (inp : RunInput)
    (h : s.awaiting_confirmation = true → s.current_answer ≠ "" ∧ s.current_evaluation ≠ "") :
    (main_step complete s inp).state.awaiting_confirmation = true →
      (main_step complete s inp).state.current_answer ≠ "" ∧
      (main_step complete s inp).state.current_evaluation ≠ "" := by
  obtain ⟨-, -, a3, a4, a5, -⟩ := apply_sidebar_frame s inp
  rcases main_step_state_cases complete s inp with he | he <;> rw [he]
  · intro hw
    rw [a3] at hw
    rw [a4, a5]
    exact h hw
  · obtain ⟨-, -, q3, q4, q5⟩ := ensure_question_frame complete (apply_sidebar s inp).1
    have hinv : (ensure_question complete (apply_sidebar s inp).1).1.awaiting_confirmation = true →
        (ensure_question complete (apply_sidebar s inp).1).1.current_answer ≠ "" ∧
        (ensure_question complete (apply_sidebar s inp).1).1.current_evaluation ≠ "" := by
      intro hw
      rw [q3, a3] at hw
      rw [q4, a4, q5, a5]
      exact h hw
    unfold dispatch_action
    cases inp.action <;> dsimp only
    · exact hinv
    · split
      · exact hinv
      · unfold submit_answer_action
        split
        · exact hinv
        · rename_i hcond
          intro _
          refine ⟨?_, ?_⟩
          · exact ne_empty_of_strip_ne_empty _ (by simpa using hcond)
          · exact evaluate_answer_ne_empty complete inp.answer_text _ _
    · split
      · rw [clarify_action_frame]
        intro hw
        exact hinv hw
      · exact hinv
    · split
      · simp [proceed_action]
      · exact hinv

/-- C9: in every reachable session state, a raised awaiting-confirmation
flag implies that the stored current answer and current evaluation are
both non-empty. -/
theorem awaiting_implies_nonempty (s : SessionState) (hs : Reachable s)
    (hw : s.awaiting_confirmation = true) :
    s.current_answer ≠ "" ∧ s.current_evaluation ≠ "" := by
  revert hw
  induction hs with
  | init => intro hw; simp [init_state] at hw
  | step complete inp hr ih =>
      exact main_step_preserves_awaiting_nonempty complete _ inp ih

/-- The state after uploading a resume from the initial state. -/
def uploaded_example : SessionState :=
  (main_step ok_oracle init_state ⟨"Both", some "resume", "", UserAction.idle⟩).state

/-- The state after then submitting a non-blank answer. -/
def submitted_example : SessionState :=
  (main_step ok_oracle uploaded_example ⟨"Both", none, "my answer", UserAction.submit⟩).state

/-- Witness for C9 on a concrete reachable awaiting-confirmation state:
upload a resume, then submit "my answer". -/
theorem awaiting_implies_nonempty_witness :
    submitted_example.current_answer ≠ "" ∧ submitted_example.current_evaluation ≠ "" :=
  awaiting_implies_nonempty submitted_example
    (Reachable.step ok_oracle ⟨"Both", none, "my answer", UserAction.submit⟩
      (Reachable.step ok_oracle ⟨"Both", some "resume", "", UserAction.idle⟩ Reachable.init))
    (by decide)

end ResumeInterview
